import Mathlib

/-!
Verification development for the Chrome extension security analyzer
(`extension_scanner/background.js`): a shallow embedding of the risk
correlation and scoring pipeline, followed by theorems about it.

Machine numbers: every score in the scanner is a non-negative integer
built from non-negative integer increments, so scores are embedded as
`Nat`.  The only arithmetic on non-integers is `Math.round(s*0.6 + r*0.4)`
(resp. `0.3/0.7`); since JavaScript `Math.round` rounds half-way cases up,
`Math.round((6*s + 4*r)/10)` is embedded exactly as `(6*s + 4*r + 5) / 10`
in `Nat`.  On the local scoring path both blended operands are multiples
of 5, so `(6*s + 4*r)` is a multiple of 10 and the IEEE-double evaluation
in the source rounds to the same integer.
-/

namespace Scanner

/-- Extension metadata as assembled by `discoverExtensions` /
`scanOneExtension` (background.js, discovery layer): both call sites
default `installType` to `"normal"` and the permission lists to `[]`
before analysis, so the fields here are total. -/
structure Extension where
  id : String
  name : String
  version : String
  installType : String
  permissions : List String
  hostPermissions : List String
  enabled : Bool
  description : String
  homepageUrl : String
  deriving Repr, DecidableEq

/-- The test `installType` equals `sideload` or `development`
(background.js line 328). -/
def isSideloaded (e : Extension) : Bool :=
  e.installType == "sideload" || e.installType == "development"

/-- The test `installType` equals `development` (background.js line 329). -/
def isUnpacked (e : Extension) : Bool :=
  e.installType == "development"

/-- Result record of `analyzeManifestStatic` (background.js 441-449). -/
structure StaticResult where
  riskScore : Nat
  riskLevel : String
  flags : List String
  suspiciousPatterns : List String
  reasons : List String
  permissionCount : Nat
  hasUniversalAccess : Bool
  deriving Repr, DecidableEq

/-- Shared tier computation (background.js 434-439 and 763-767: the two
sites have the same thresholds and default). -/
def riskLevelOf (score : Nat) : String :=
  if score ≥ 81 then "CRITICAL"
  else if score ≥ 61 then "HIGH"
  else if score ≥ 31 then "MEDIUM"
  else "LOW"

/-- `extension.hostPermissions.some(...)` test for unrestricted host
access (background.js 388-390). -/
def hasUniversalAccessOf (hostPermissions : List String) : Bool :=
  hostPermissions.any fun p =>
    p == "<all_urls>" || p == "*://*/*" || p == "http://*/*" || p == "https://*/*"

/-- `extension.permissions.length + extension.hostPermissions.length`
(background.js 410). -/
def permissionCountOf (e : Extension) : Nat :=
  e.permissions.length + e.hostPermissions.length

/-- Escalating bonus for more than 10 declared permissions, capped at 15
(background.js 411-414). -/
def excessPermBonus (count : Nat) : Nat :=
  if count > 10 then min (((count - 10) / 5) * 5) 15 else 0

/-- The point accumulation of `analyzeManifestStatic` before the
dangerous-combination section (background.js 355-416), in source order:
dangerous permissions, universal host access, install source, excessive
permission count. -/
def manifestBaseScore (e : Extension) : Nat :=
  (if e.permissions.contains "webRequestBlocking" then 30 else 0) +
  (if e.permissions.contains "debugger" then 40 else 0) +
  (if e.permissions.contains "proxy" then 25 else 0) +
  (if e.permissions.contains "cookies" then 15 else 0) +
  (if hasUniversalAccessOf e.hostPermissions then 25 else 0) +
  (if isSideloaded e || isUnpacked e then 10 else 0) +
  excessPermBonus (permissionCountOf e)

/-- The dangerous-combination bonuses (background.js 418-432):
cookies + universal access, and webRequest + universal access. -/
def manifestComboBonus (e : Extension) : Nat :=
  (if e.permissions.contains "cookies" && hasUniversalAccessOf e.hostPermissions
    then 10 else 0) +
  (if e.permissions.contains "webRequest" && hasUniversalAccessOf e.hostPermissions
    then 10 else 0)

/-- Total accumulated `riskScore` of `analyzeManifestStatic` before the
final `Math.min(riskScore, 100)` clamp. -/
def manifestRawScore (e : Extension) : Nat :=
  manifestBaseScore e + manifestComboBonus e

/-- `analyzeManifestStatic` (background.js 349-450).  The returned
`riskLevel` is computed from the unclamped accumulation, the returned
`riskScore` is clamped at 100. -/
def analyzeManifestStatic (e : Extension) : StaticResult :=
  let univ := hasUniversalAccessOf e.hostPermissions
  let count := permissionCountOf e
  { riskScore := min (manifestRawScore e) 100
  , riskLevel := riskLevelOf (manifestRawScore e)
  , flags :=
      (if e.permissions.contains "webRequestBlocking"
        then ["DANGEROUS_PERMISSION_WEBREQUESTBLOCKING"] else []) ++
      (if e.permissions.contains "debugger"
        then ["CRITICAL_PERMISSION_DEBUGGER"] else []) ++
      (if e.permissions.contains "proxy"
        then ["DANGEROUS_PERMISSION_PROXY"] else []) ++
      (if e.permissions.contains "cookies"
        then ["COOKIE_ACCESS"] else []) ++
      (if univ then ["UNIVERSAL_HOST_ACCESS"] else []) ++
      (if isSideloaded e || isUnpacked e then ["UNVERIFIED_SOURCE"] else []) ++
      (if count > 10 then ["EXCESSIVE_PERMISSIONS"] else []) ++
      (if e.permissions.contains "cookies" && univ
        then ["COOKIE_THEFT_RISK"] else []) ++
      (if e.permissions.contains "webRequest" && univ
        then ["DATA_EXFILTRATION_RISK"] else [])
  , suspiciousPatterns := []
  , reasons :=
      (if e.permissions.contains "webRequestBlocking"
        then ["Có quyền chặn và sửa đổi network requests"] else []) ++
      (if e.permissions.contains "debugger"
        then ["Có quyền debugger - có thể inject code vào bất kỳ trang nào"] else []) ++
      (if e.permissions.contains "proxy"
        then ["Có quyền proxy - có thể redirect network traffic"] else []) ++
      (if e.permissions.contains "cookies"
        then ["Có quyền đọc cookies - nguy cơ cookie theft"] else []) ++
      (if univ then ["Có quyền truy cập tất cả websites (<all_urls>)"] else []) ++
      (if isSideloaded e || isUnpacked e
        then ["Extension không được cài từ Chrome Web Store (sideloaded/unpacked)"] else []) ++
      (if count > 10
        then ["Yêu cầu " ++ toString count ++ " quyền - quá nhiều so với chức năng thông thường"] else []) ++
      (if e.permissions.contains "cookies" && univ
        then ["Kết hợp cookies + <all_urls> = nguy cơ cookie theft cao"] else []) ++
      (if e.permissions.contains "webRequest" && univ
        then ["Kết hợp webRequest + <all_urls> = nguy cơ data exfiltration"] else [])
  , permissionCount := count
  , hasUniversalAccess := univ }

/-- Raw runtime observations, in the shape produced by the content
script and stored under `runtime_obs_<id>` (background.js 460-487,
content script `part_005`).  `getRuntimeObservations` and
`normalizeBehavior` default every absent field (`|| false`, `|| []`,
`|| low`), so the fields here are total; the JS falsy-string default
for `frequency` is kept explicitly in `normalizeBehavior`. -/
structure Observations where
  dom_injection : Bool
  form_hijacking : Bool
  keystroke_capture : Bool
  external_post : Bool
  fetch_domains : List String
  xhr_domains : List String
  frequency : String
  deriving Repr, DecidableEq

/-- Normalized behavior vector (background.js 497-524). -/
structure BehaviorVector where
  dom_injection : Bool
  form_hijacking : Bool
  keystroke_capture : Bool
  external_post : Bool
  fetch_domains : List String
  xhr_domains : List String
  frequency : String
  suspicious_domains : List String
  data_exfiltration : Bool
  deriving Repr, DecidableEq

/-- JavaScript `String.prototype.endsWith` (suffix test), computed over
the character sequence so that concrete inputs evaluate by kernel
reduction. -/
def strEndsWith (s t : String) : Bool :=
  t.data.isSuffixOf s.data

/-- JavaScript `String.prototype.startsWith` (prefix test), over the
character sequence. -/
def strStartsWith (s t : String) : Bool :=
  t.data.isPrefixOf s.data

/-- Dropping the first `n` characters of a string ("whitelist_" and
"blacklist_" are ASCII, so JS code-unit indexing agrees with character
indexing here). -/
def strDrop (s : String) (n : Nat) : String :=
  String.mk (s.data.drop n)

/-- JavaScript string falsiness test: only the empty string is falsy. -/
def strIsEmpty (s : String) : Bool :=
  s.data.isEmpty

/-- The suspicious top-level-domain list (background.js 512). -/
def suspiciousTLDs : List String :=
  [".tk", ".ml", ".ga", ".cf", ".xyz", ".top"]

/-- `normalizeBehavior` (background.js 497-524): copies the observation
fields, computes the suspicious-domain subset by TLD suffix, and sets
`data_exfiltration` when an external POST was seen or any fetch/XHR
domain was recorded. -/
def normalizeBehavior (obs : Observations) : BehaviorVector :=
  let allDomains := obs.fetch_domains ++ obs.xhr_domains
  { dom_injection := obs.dom_injection
  , form_hijacking := obs.form_hijacking
  , keystroke_capture := obs.keystroke_capture
  , external_post := obs.external_post
  , fetch_domains := obs.fetch_domains
  , xhr_domains := obs.xhr_domains
  , frequency := if strIsEmpty obs.frequency then "low" else obs.frequency
  , suspicious_domains :=
      allDomains.filter fun d => suspiciousTLDs.any fun tld => strEndsWith d tld
  , data_exfiltration :=
      obs.external_post
        || obs.fetch_domains.length != 0
        || obs.xhr_domains.length != 0 }

/-- Result of `calculateRuntimeScore` (background.js 583-586). -/
structure RuntimeResult where
  score : Nat
  reasons : List String
  deriving Repr, DecidableEq

/-- The point accumulation of `calculateRuntimeScore` before the final
`Math.min(runtimeScore, 100)` clamp (background.js 530-582), in source
order. -/
def runtimeRawScore (bv : BehaviorVector) (staticAnalysis : StaticResult) : Nat :=
  (if bv.form_hijacking then 50 else 0) +
  (if bv.dom_injection && !bv.form_hijacking then 20 else 0) +
  (if bv.keystroke_capture then 25 else 0) +
  (if bv.external_post then 30 else 0) +
  (if bv.suspicious_domains.length > 0
    then min (bv.suspicious_domains.length * 15) 30 else 0) +
  (if bv.data_exfiltration && bv.frequency == "high" then 10 else 0) +
  (if bv.keystroke_capture && !staticAnalysis.hasUniversalAccess then 5 else 0) +
  (if bv.form_hijacking && bv.external_post then 20 else 0)

/-- `calculateRuntimeScore` (background.js 530-587). -/
def calculateRuntimeScore (bv : BehaviorVector) (staticAnalysis : StaticResult) :
    RuntimeResult :=
  { score := min (runtimeRawScore bv staticAnalysis) 100
  , reasons :=
      (if bv.form_hijacking
        then ["⚠️ CRITICAL: Phát hiện Form Hijacking - extension đang chuyển hướng form để đánh cắp thông tin đăng nhập"] else []) ++
      (if bv.dom_injection && !bv.form_hijacking
        then ["Phát hiện DOM injection - extension đang inject code vào trang web"] else []) ++
      (if bv.keystroke_capture
        then ["Phát hiện keystroke capture - extension đang theo dõi phím gõ"] else []) ++
      (if bv.external_post
        then ["Phát hiện gửi dữ liệu ra ngoài qua POST request"] else []) ++
      (if bv.suspicious_domains.length > 0
        then ["Gửi dữ liệu đến " ++ toString bv.suspicious_domains.length ++ " domain đáng ngờ"] else []) ++
      (if bv.data_exfiltration && bv.frequency == "high"
        then ["Tần suất gửi dữ liệu cao - nguy cơ data exfiltration"] else []) ++
      (if bv.keystroke_capture && !staticAnalysis.hasUniversalAccess
        then ["⚠️ Keystroke capture nhưng không có <all_urls> - có thể bypass permission"] else []) ++
      (if bv.form_hijacking && bv.external_post
        then ["⚠️ CRITICAL: Form hijacking kết hợp với external POST - nguy cơ credential theft cực cao"] else []) }

/-- The manifest analysis payload a successful remote analyzer call
yields after `analyzeWithAnalyzerAPI` reshapes it (background.js
626-683): risk score/level, flags, the reasons list built from the API
response, the universal-access bit used downstream, and the API
recommendation strings.  The HTTP call itself is a network effect, so a
call outcome is passed to `correlateRisk` as
`Option ApiManifestAnalysis` (`none` = the `success: false` fallback of
background.js 687-694). -/
structure ApiManifestAnalysis where
  risk_score : Nat
  risk_level : String
  flags : List String
  reasons : List String
  universal_access : Bool
  recommendations : List String
  deriving Repr, DecidableEq

/-- Selection of the static analysis used by `correlateRisk`
(background.js 710-728): the API result when the call succeeded,
otherwise the local `analyzeManifestStatic` fallback. -/
def staticAnalysisOf (e : Extension) (api : Option ApiManifestAnalysis) :
    StaticResult :=
  match api with
  | some a =>
      { riskScore := a.risk_score
      , riskLevel := a.risk_level
      , flags := a.flags
      , reasons := a.reasons
      , suspiciousPatterns := []
      , permissionCount := e.permissions.length + e.hostPermissions.length
      , hasUniversalAccess := a.universal_access }
  | none => analyzeManifestStatic e

/-- `Math.round(s*0.6 + r*0.4)` on non-negative integers, rounding
half-way cases up (background.js 750-752). -/
def roundBlend60 (s r : Nat) : Nat := (6 * s + 4 * r + 5) / 10

/-- `Math.round(s*0.3 + r*0.7)` on non-negative integers, rounding
half-way cases up (background.js 745-747). -/
def roundBlend30 (s r : Nat) : Nat := (3 * s + 7 * r + 5) / 10

/-- Install-source bonus (background.js 756-759). -/
def installBonus (e : Extension) : Nat :=
  if isSideloaded e || isUnpacked e then 5 else 0

/-- One local recommendation entry (background.js 810-866). -/
structure Recommendation where
  level : String
  action : String
  message : String
  deriving Repr, DecidableEq

/-- `generateRecommendations` (background.js 810-866). -/
def generateRecommendations (riskLevel : String) (flags : List String)
    (bv : BehaviorVector) : List Recommendation :=
  (if riskLevel == "CRITICAL" then
    [{ level := "CRITICAL", action := "uninstall"
     , message := "Extension có nguy cơ cực cao. Nên gỡ cài đặt ngay lập tức." }]
  else if riskLevel == "HIGH" then
    [{ level := "HIGH", action := "disable"
     , message := "Extension có nguy cơ cao. Nên tắt hoặc gỡ cài đặt." }]
  else if riskLevel == "MEDIUM" then
    [{ level := "MEDIUM", action := "monitor"
     , message := "Extension có một số rủi ro. Nên theo dõi và xem xét." }]
  else []) ++
  (if flags.contains "CRITICAL_PERMISSION_DEBUGGER" then
    [{ level := "CRITICAL", action := "uninstall"
     , message := "⚠️ Extension có quyền debugger - có thể inject code vào bất kỳ trang nào" }]
  else []) ++
  (if bv.form_hijacking then
    [{ level := "CRITICAL", action := "uninstall"
     , message := "🚨 CRITICAL: Phát hiện Form Hijacking - extension đang chuyển hướng form để đánh cắp thông tin đăng nhập. Gỡ cài đặt ngay!" }]
  else []) ++
  (if bv.keystroke_capture then
    [{ level := "HIGH", action := "disable"
     , message := "⚠️ Phát hiện keystroke capture - extension đang theo dõi phím gõ của bạn" }]
  else []) ++
  (if bv.suspicious_domains.length > 0 then
    [{ level := "HIGH", action := "disable"
     , message := "⚠️ Extension gửi dữ liệu đến " ++ toString bv.suspicious_domains.length ++ " domain đáng ngờ" }]
  else [])

/-- An entry of the final `recommendations` array, which mixes the API
recommendation strings with the local structured recommendations
(background.js 776-779). -/
inductive RecEntry where
  | fromApi (s : String)
  | fromLocal (r : Recommendation)
  deriving Repr, DecidableEq

/-- The `breakdown` object of the final report (background.js 791-796). -/
structure Breakdown where
  staticScore : Nat
  runtimeScore : Nat
  installSourceBonus : Nat
  usingAnalyzerAPI : Bool
  deriving Repr, DecidableEq

/-- Extension echo inside the final report (background.js 782-788). -/
structure ExtensionSummary where
  id : String
  name : String
  version : String
  enabled : Bool
  installType : String
  deriving Repr, DecidableEq

/-- The `RiskReport` value returned by `correlateRisk`
(background.js 781-804). -/
structure Report where
  extension : ExtensionSummary
  riskScore : Nat
  riskLevel : String
  breakdown : Breakdown
  flags : List String
  behaviorVector : BehaviorVector
  reasons : List String
  recommendations : List RecEntry
  permissions : List String
  hostPermissions : List String
  permissionCount : Nat
  deriving Repr, DecidableEq

/-- `correlateRisk` (background.js 703-805).  The remote analyzer call
outcome and the stored behavior-observation snapshot are explicit
parameters: the first replaces the `await analyzeWithAnalyzerAPI(...)`
network call, the second the `await getRuntimeObservations(...)`
storage read. -/
def correlateRisk (e : Extension) (api : Option ApiManifestAnalysis)
    (obs : Observations) : Report :=
  let staticAnalysis := staticAnalysisOf e api
  let apiRecommendations : List String :=
    match api with | some a => a.recommendations | none => []
  let bv := normalizeBehavior obs
  let runtimeAnalysis := calculateRuntimeScore bv staticAnalysis
  let finalScore :=
    if bv.form_hijacking then
      roundBlend30 staticAnalysis.riskScore runtimeAnalysis.score
    else
      roundBlend60 staticAnalysis.riskScore runtimeAnalysis.score
  let installSourceBonus := installBonus e
  let finalRiskScore := min (finalScore + installSourceBonus) 100
  let finalRiskLevel := riskLevelOf finalRiskScore
  let allReasons := staticAnalysis.reasons ++ runtimeAnalysis.reasons
  let localRecommendations :=
    generateRecommendations finalRiskLevel staticAnalysis.flags bv
  let recommendations : List RecEntry :=
    if apiRecommendations.length > 0 then
      apiRecommendations.map RecEntry.fromApi
        ++ localRecommendations.map RecEntry.fromLocal
    else
      localRecommendations.map RecEntry.fromLocal
  { extension :=
      { id := e.id, name := e.name, version := e.version
      , enabled := e.enabled, installType := e.installType }
  , riskScore := finalRiskScore
  , riskLevel := finalRiskLevel
  , breakdown :=
      { staticScore := staticAnalysis.riskScore
      , runtimeScore := runtimeAnalysis.score
      , installSourceBonus := installSourceBonus
      , usingAnalyzerAPI := api.isSome }
  , flags := staticAnalysis.flags
  , behaviorVector := bv
  , reasons := allReasons
  , recommendations := recommendations
  , permissions := e.permissions
  , hostPermissions := e.hostPermissions
  , permissionCount := staticAnalysis.permissionCount }

/-- Extension input as JavaScript sees it before any defaulting: the
permission lists may be absent (`undefined`).  `chrome.management` items
have this shape (background.js 961, 986-999). -/
structure ExtensionJS where
  id : String
  name : String
  version : String
  installType : Option String
  permissions : Option (List String)
  hostPermissions : Option (List String)
  enabled : Bool
  description : Option String
  homepageUrl : Option String
  deriving Repr, DecidableEq

/-- The defaulted metadata object built by `scanOneExtension`
(background.js 986-999) and, identically, by `discoverExtensions`
(background.js 317-330): absent fields default to `normal`, `[]`,
and the empty string. -/
def toExtension (info : ExtensionJS) : Extension :=
  { id := info.id
  , name := info.name
  , version := info.version
  , installType := info.installType.getD "normal"
  , permissions := info.permissions.getD []
  , hostPermissions := info.hostPermissions.getD []
  , enabled := info.enabled
  , description := info.description.getD ""
  , homepageUrl := info.homepageUrl.getD "" }

/-- `analyzeManifestStatic` applied to an un-defaulted input, with
JavaScript evaluation order: line 358 dereferences
`extension.permissions.includes(...)` and line 388
`extension.hostPermissions.some(...)`, so an absent list raises a
`TypeError` instead of defaulting (modelled as `Except.error`). -/
def analyzeManifestStaticJS (info : ExtensionJS) : Except String StaticResult :=
  match info.permissions with
  | none => Except.error "TypeError: Cannot read properties of undefined (reading includes)"
  | some _ =>
    match info.hostPermissions with
    | none => Except.error "TypeError: Cannot read properties of undefined (reading some)"
    | some _ => Except.ok (analyzeManifestStatic (toExtension info))

/-- Stored keys of `chrome.storage.local` whose values are truthy
(blacklist/whitelist markers are stored as `blacklist_<id>: true`,
`whitelist_<id>: true`). -/
abbrev StorageKeys := List String

/-- The whitelist id set rebuilt by `scanAllExtensions` from storage
keys (background.js 887-893): keys starting with `whitelist_` with the
leading marker stripped. -/
def whitelistOf (storage : StorageKeys) : List String :=
  storage.filterMap fun key =>
    if strStartsWith key "whitelist_" then some (strDrop key 10) else none

/-- The extensions `scanAllExtensions` actually passes to
`correlateRisk` (background.js 896, 905-907): everything discovered
whose id is not in the whitelist. -/
def scanTargets (storage : StorageKeys) (extensions : List Extension) :
    List Extension :=
  let whitelist := whitelistOf storage
  extensions.filter fun e => !(whitelist.contains e.id)

/-- The analysis results produced by `scanAllExtensions`
(background.js 905-907); the analyzer-API outcome and stored behavior
snapshot of each extension are supplied by the environment maps. -/
def scanAllResults (storage : StorageKeys) (extensions : List Extension)
    (api : Extension → Option ApiManifestAnalysis)
    (obs : Extension → Observations) : List Report :=
  (scanTargets storage extensions).map fun e => correlateRisk e (api e) (obs e)

/-- `scanOneExtension` (background.js 956-1035): returns `null` for the
analyzer itself, for a blacklisted id, and for a whitelisted id — in
that source order — and otherwise analyzes the defaulted metadata. -/
def scanOneExtension (storage : StorageKeys) (selfId : String)
    (info : ExtensionJS) (api : Option ApiManifestAnalysis)
    (obs : Observations) : Option Report :=
  if info.id == selfId then none
  else if storage.contains ("blacklist_" ++ info.id) then none
  else if storage.contains ("whitelist_" ++ info.id) then none
  else some (correlateRisk (toExtension info) api obs)

/-- Observation snapshot with nothing observed: the default object
`getRuntimeObservations` returns when no `runtime_obs_<id>` entry
exists (background.js 464-472). -/
def emptyObservations : Observations :=
  { dom_injection := false, form_hijacking := false
  , keystroke_capture := false, external_post := false
  , fetch_domains := [], xhr_domains := [], frequency := "low" }

/-- A plain store-installed extension with no declared capabilities. -/
def plainExt : Extension :=
  { id := "ext-plain", name := "Plain", version := "1.0"
  , installType := "normal", permissions := [], hostPermissions := []
  , enabled := true, description := "", homepageUrl := "" }

/-- A successful analyzer-API outcome assigning manifest score 50. -/
def apiSample : ApiManifestAnalysis :=
  { risk_score := 50, risk_level := "MEDIUM", flags := [], reasons := []
  , universal_access := false, recommendations := [] }

/-- Scenario B artifact: host permission all_urls, permissions cookies
and webRequest, store install. -/
def scenarioBExt : Extension :=
  { id := "ext-b", name := "ScenarioB", version := "1.0"
  , installType := "normal"
  , permissions := ["cookies", "webRequest"]
  , hostPermissions := ["<all_urls>"]
  , enabled := true, description := "", homepageUrl := "" }

/-- A maximal-static-score extension used to probe the blend override:
local manifest score clamps to 100. -/
def maxStaticExt : Extension :=
  { id := "ext-max", name := "MaxStatic", version := "1.0"
  , installType := "normal"
  , permissions := ["webRequestBlocking", "debugger", "proxy", "cookies", "webRequest"]
  , hostPermissions := ["<all_urls>"]
  , enabled := true, description := "", homepageUrl := "" }

/-- Observation snapshot with only DOM injection observed. -/
def domOnlyObs : Observations :=
  { emptyObservations with dom_injection := true }

/-- An unpacked extension whose dangerous permissions alone clamp the
local manifest score to 100 without universal host access. -/
def devExt : Extension :=
  { id := "ext-dev", name := "Dev", version := "1.0"
  , installType := "development"
  , permissions := ["webRequestBlocking", "debugger", "proxy", "cookies"]
  , hostPermissions := []
  , enabled := true, description := "", homepageUrl := "" }

/-- Observation snapshot driving the runtime score to its 100 clamp
without form hijacking: keystrokes, external POST, two suspicious
domains, high frequency. -/
def heavyObs : Observations :=
  { dom_injection := false, form_hijacking := false
  , keystroke_capture := true, external_post := true
  , fetch_domains := ["telemetry.a.tk", "drop.b.tk"], xhr_domains := []
  , frequency := "high" }

/-- Observation snapshot with one external XHR domain recorded and no
external POST (a GET-only XHR in the content-script interceptor of
`part_005` records the domain but leaves `external_post` false). -/
def getOnlyObs : Observations :=
  { dom_injection := false, form_hijacking := false
  , keystroke_capture := false, external_post := false
  , fetch_domains := [], xhr_domains := ["api.example.com"]
  , frequency := "low" }

/-- An un-defaulted management item whose permission lists are absent. -/
def bareInfo : ExtensionJS :=
  { id := "ext-bare", name := "Bare", version := "1.0"
  , installType := none, permissions := none, hostPermissions := none
  , enabled := true, description := none, homepageUrl := none }

/-- Adding one permission to the declared permission set, everything
else unchanged. -/
def addPerm (e : Extension) (p : String) : Extension :=
  { e with permissions := p :: e.permissions }

/-- The components of a report the determinism contract ranges over:
risk score, risk level, breakdown, flags, behavior vector, reasons and
recommendations (everything except the metadata echo). -/
def reportCore (r : Report) :
    Nat × String × Breakdown × List String × BehaviorVector × List String ×
      List RecEntry :=
  (r.riskScore, r.riskLevel, r.breakdown, r.flags, r.behaviorVector,
   r.reasons, r.recommendations)

section Lemmas

/-- A guarded constant increment is monotone in its guard. -/
lemma cond_le_cond (b b' : Bool) (k : Nat) (h : b = true → b' = true) :
    (if b then k else 0) ≤ (if b' then k else 0) := by
  cases b <;> cases b' <;> simp_all

lemma excessPermBonus_mono {c c' : Nat} (h : c ≤ c') :
    excessPermBonus c ≤ excessPermBonus c' := by
  unfold excessPermBonus
  split_ifs <;> omega

lemma contains_cons_mono (l : List String) (p x : String)
    (h : l.contains x = true) : (p :: l).contains x = true := by
  simp only [List.contains_eq_any_beq] at h ⊢
  simp_all [List.any_cons]

lemma manifestRawScore_addPerm_mono (e : Extension) (p : String) :
    manifestRawScore e ≤ manifestRawScore (addPerm e p) := by
  have hc : ∀ x, e.permissions.contains x = true →
      (addPerm e p).permissions.contains x = true := by
    intro x hx
    exact contains_cons_mono e.permissions p x hx
  have hcc : ∀ x, (e.permissions.contains x &&
        hasUniversalAccessOf e.hostPermissions) = true →
      ((addPerm e p).permissions.contains x &&
        hasUniversalAccessOf e.hostPermissions) = true := by
    intro x hx
    simp only [Bool.and_eq_true] at hx ⊢
    exact ⟨hc _ hx.1, hx.2⟩
  have h1 := cond_le_cond _ _ 30 (hc "webRequestBlocking")
  have h2 := cond_le_cond _ _ 40 (hc "debugger")
  have h3 := cond_le_cond _ _ 25 (hc "proxy")
  have h4 := cond_le_cond _ _ 15 (hc "cookies")
  have h5 : excessPermBonus (permissionCountOf e) ≤
      excessPermBonus (permissionCountOf (addPerm e p)) := by
    apply excessPermBonus_mono
    simp only [permissionCountOf, addPerm, List.length_cons]
    omega
  have h6 := cond_le_cond _ _ 10 (hcc "cookies")
  have h7 := cond_le_cond _ _ 10 (hcc "webRequest")
  have huniv : hasUniversalAccessOf (addPerm e p).hostPermissions =
      hasUniversalAccessOf e.hostPermissions := rfl
  have hside : (isSideloaded (addPerm e p) || isUnpacked (addPerm e p)) =
      (isSideloaded e || isUnpacked e) := rfl
  unfold manifestRawScore manifestBaseScore manifestComboBonus
  rw [huniv, hside]
  omega

lemma riskLevelOf_min_100 (x : Nat) : riskLevelOf (min x 100) = riskLevelOf x := by
  rcases Nat.le_total x 100 with h | h
  · rw [Nat.min_eq_left h]
  · rw [Nat.min_eq_right h]
    unfold riskLevelOf
    split_ifs <;> first | rfl | omega

lemma runtimeRawScore_mono (bv bv' : BehaviorVector) (st : StaticResult)
    (hfh : bv.form_hijacking = bv'.form_hijacking)
    (hdom : bv.dom_injection = true → bv'.dom_injection = true)
    (hks : bv.keystroke_capture = true → bv'.keystroke_capture = true)
    (hep : bv.external_post = true → bv'.external_post = true)
    (hsusp : bv.suspicious_domains = bv'.suspicious_domains)
    (hex : bv.data_exfiltration = true → bv'.data_exfiltration = true)
    (hfreq : bv.frequency = bv'.frequency) :
    runtimeRawScore bv st ≤ runtimeRawScore bv' st := by
  unfold runtimeRawScore
  rw [hfh, hsusp, hfreq]
  have t2 := cond_le_cond (bv.dom_injection && !bv'.form_hijacking)
    (bv'.dom_injection && !bv'.form_hijacking) 20 ?hdom
  case hdom =>
    intro hx
    simp only [Bool.and_eq_true] at hx ⊢
    exact ⟨hdom hx.1, hx.2⟩
  have t3 := cond_le_cond _ _ 25 hks
  have t4 := cond_le_cond _ _ 30 hep
  have t6 := cond_le_cond (bv.data_exfiltration && (bv'.frequency == "high"))
    (bv'.data_exfiltration && (bv'.frequency == "high")) 10 ?hex
  case hex =>
    intro hx
    simp only [Bool.and_eq_true] at hx ⊢
    exact ⟨hex hx.1, hx.2⟩
  have t7 := cond_le_cond (bv.keystroke_capture && !st.hasUniversalAccess)
    (bv'.keystroke_capture && !st.hasUniversalAccess) 5 ?hks
  case hks =>
    intro hx
    simp only [Bool.and_eq_true] at hx ⊢
    exact ⟨hks hx.1, hx.2⟩
  have t8 := cond_le_cond (bv'.form_hijacking && bv.external_post)
    (bv'.form_hijacking && bv'.external_post) 20 ?hep
  case hep =>
    intro hx
    simp only [Bool.and_eq_true] at hx ⊢
    exact ⟨hx.1, hep hx.2⟩
  omega

lemma normalizeBehavior_exfil_mono (obs obs' : Observations)
    (hep : obs.external_post = true → obs'.external_post = true)
    (hf : obs.fetch_domains = obs'.fetch_domains)
    (hx : obs.xhr_domains = obs'.xhr_domains) :
    (normalizeBehavior obs).data_exfiltration = true →
      (normalizeBehavior obs').data_exfiltration = true := by
  intro h
  simp only [normalizeBehavior, Bool.or_eq_true, bne_iff_ne] at h ⊢
  rcases h with (h | h) | h
  · exact Or.inl (Or.inl (hep h))
  · exact Or.inl (Or.inr (hf ▸ h))
  · exact Or.inr (hx ▸ h)

/-- Master monotonicity lemma for the final score across behavior
snapshots: with the form-hijacking bit fixed (so the blend branch is
fixed) and the observed domain lists fixed, switching on any of the
other observation flags cannot lower the correlated score. -/
lemma correlateRisk_mono_behavior (e : Extension)
    (api : Option ApiManifestAnalysis) (obs obs' : Observations)
    (hfh : obs.form_hijacking = obs'.form_hijacking)
    (hdom : obs.dom_injection = true → obs'.dom_injection = true)
    (hks : obs.keystroke_capture = true → obs'.keystroke_capture = true)
    (hep : obs.external_post = true → obs'.external_post = true)
    (hf : obs.fetch_domains = obs'.fetch_domains)
    (hx : obs.xhr_domains = obs'.xhr_domains)
    (hfreq : obs.frequency = obs'.frequency) :
    (correlateRisk e api obs).riskScore ≤ (correlateRisk e api obs').riskScore := by
  have hbfh : (normalizeBehavior obs).form_hijacking =
      (normalizeBehavior obs').form_hijacking := by
    simp only [normalizeBehavior]
    exact hfh
  have hsusp : (normalizeBehavior obs).suspicious_domains =
      (normalizeBehavior obs').suspicious_domains := by
    simp only [normalizeBehavior, hf, hx]
  have hbfreq : (normalizeBehavior obs).frequency =
      (normalizeBehavior obs').frequency := by
    simp only [normalizeBehavior, hfreq]
  have hraw : runtimeRawScore (normalizeBehavior obs) (staticAnalysisOf e api) ≤
      runtimeRawScore (normalizeBehavior obs') (staticAnalysisOf e api) :=
    runtimeRawScore_mono _ _ _ hbfh hdom hks hep hsusp
      (normalizeBehavior_exfil_mono obs obs' hep hf hx) hbfreq
  have hscore : (calculateRuntimeScore (normalizeBehavior obs)
        (staticAnalysisOf e api)).score ≤
      (calculateRuntimeScore (normalizeBehavior obs')
        (staticAnalysisOf e api)).score := by
    exact min_le_min hraw le_rfl
  show min ((if (normalizeBehavior obs).form_hijacking then
      roundBlend30 (staticAnalysisOf e api).riskScore
        (calculateRuntimeScore (normalizeBehavior obs) (staticAnalysisOf e api)).score
    else
      roundBlend60 (staticAnalysisOf e api).riskScore
        (calculateRuntimeScore (normalizeBehavior obs) (staticAnalysisOf e api)).score)
      + installBonus e) 100 ≤
    min ((if (normalizeBehavior obs').form_hijacking then
      roundBlend30 (staticAnalysisOf e api).riskScore
        (calculateRuntimeScore (normalizeBehavior obs') (staticAnalysisOf e api)).score
    else
      roundBlend60 (staticAnalysisOf e api).riskScore
        (calculateRuntimeScore (normalizeBehavior obs') (staticAnalysisOf e api)).score)
      + installBonus e) 100
  rw [hbfh]
  apply min_le_min _ le_rfl
  apply Nat.add_le_add_right
  cases (normalizeBehavior obs').form_hijacking
  · simp only [Bool.false_eq_true, if_false]
    unfold roundBlend60
    apply Nat.div_le_div_right
    omega
  · simp only [if_true]
    unfold roundBlend30
    apply Nat.div_le_div_right
    omega

end Lemmas

/-- C2: the final riskScore returned by correlateRisk lies in [0,100]
(the lower bound holds because every score is a `Nat`); the manifest
static score is clamped to at most 100, the runtime score is clamped to
at most 100, and the blended score plus the install-source bonus is
clamped to at most 100, for all inputs — arbitrary permission lists,
host lists, domains and behavior flags. -/
theorem riskScore_bounded :
    (∀ e : Extension, (analyzeManifestStatic e).riskScore ≤ 100) ∧
    (∀ (bv : BehaviorVector) (st : StaticResult),
      (calculateRuntimeScore bv st).score ≤ 100) ∧
    (∀ (e : Extension) (api : Option ApiManifestAnalysis) (obs : Observations),
      (correlateRisk e api obs).riskScore ≤ 100) := by
  refine ⟨fun e => ?_, fun bv st => ?_, fun e api obs => ?_⟩
  · exact Nat.min_le_right _ _
  · exact Nat.min_le_right _ _
  · exact Nat.min_le_right _ _

/-- C5: the risk tier function maps a score s ≤ 100 to LOW iff s ≤ 30,
MEDIUM iff 31 ≤ s ≤ 60, HIGH iff 61 ≤ s ≤ 80 and CRITICAL iff
81 ≤ s ≤ 100, and both the manifest static analysis and the final
correlated report assign their riskLevel by exactly this function of
their riskScore. -/
theorem riskLevel_tiers :
    (∀ s : Nat, s ≤ 100 →
      ((riskLevelOf s = "LOW" ↔ s ≤ 30) ∧
       (riskLevelOf s = "MEDIUM" ↔ 31 ≤ s ∧ s ≤ 60) ∧
       (riskLevelOf s = "HIGH" ↔ 61 ≤ s ∧ s ≤ 80) ∧
       (riskLevelOf s = "CRITICAL" ↔ 81 ≤ s ∧ s ≤ 100))) ∧
    (∀ e : Extension, (analyzeManifestStatic e).riskLevel =
      riskLevelOf (analyzeManifestStatic e).riskScore) ∧
    (∀ (e : Extension) (api : Option ApiManifestAnalysis) (obs : Observations),
      (correlateRisk e api obs).riskLevel =
        riskLevelOf (correlateRisk e api obs).riskScore) := by
  refine ⟨fun s hs => ?_, fun e => ?_, fun e api obs => ?_⟩
  · unfold riskLevelOf
    split_ifs <;>
      refine ⟨?_, ?_, ?_, ?_⟩ <;>
        first
          | exact iff_of_true rfl (by omega)
          | exact iff_of_false (by decide) (by omega)
  · show riskLevelOf (manifestRawScore e) =
      riskLevelOf (min (manifestRawScore e) 100)
    exact (riskLevelOf_min_100 _).symm
  · rfl

/-- C5 witness: the tier characterization instantiated at the concrete
score 45 ≤ 100, which it classifies MEDIUM. -/
theorem riskLevel_tiers_witness : riskLevelOf 45 = "MEDIUM" :=
  (riskLevel_tiers.1 45 (by omega)).2.1.mpr (by omega)

/-- C9: an unsuccessful analyzer-API outcome never aborts the pipeline —
correlateRisk still produces the complete report from the local
manifest analysis (static score, flags and reasons all come from
analyzeManifestStatic, and the blended final score is still computed),
and the breakdown of the report records usingAnalyzerAPI = true exactly when
the remote result was used. -/
theorem api_failure_graceful_fallback :
    ∀ (e : Extension) (obs : Observations),
      (correlateRisk e none obs).breakdown.usingAnalyzerAPI = false ∧
      (correlateRisk e none obs).breakdown.staticScore =
        (analyzeManifestStatic e).riskScore ∧
      (correlateRisk e none obs).flags = (analyzeManifestStatic e).flags ∧
      (correlateRisk e none obs).reasons =
        (analyzeManifestStatic e).reasons ++
          (calculateRuntimeScore (normalizeBehavior obs)
            (analyzeManifestStatic e)).reasons ∧
      (correlateRisk e none obs).riskScore =
        min ((if (normalizeBehavior obs).form_hijacking then
            roundBlend30 (analyzeManifestStatic e).riskScore
              (calculateRuntimeScore (normalizeBehavior obs)
                (analyzeManifestStatic e)).score
          else
            roundBlend60 (analyzeManifestStatic e).riskScore
              (calculateRuntimeScore (normalizeBehavior obs)
                (analyzeManifestStatic e)).score) + installBonus e) 100 ∧
      (∀ a : ApiManifestAnalysis,
        (correlateRisk e (some a) obs).breakdown.usingAnalyzerAPI = true) := by
  intro e obs
  exact ⟨rfl, rfl, rfl, rfl, rfl, fun a => rfl⟩

/-- C1 (amended): for a fixed extension input (same id, name, version,
installType, permissions, hostPermissions), the same stored
behavior-observation snapshot AND the same analyzer-API call outcome,
correlateRisk yields identical riskScore, riskLevel, breakdown, flags,
behaviorVector, reasons and recommendations — no dependence on time of
day, randomness, or any other extension field.  (The availability of
the remote analyzer service, by contrast, does change the result: see
the counterexample.) -/
theorem correlateRisk_deterministic_given_api
    (e₁ e₂ : Extension) (api : Option ApiManifestAnalysis) (obs : Observations)
    (hid : e₁.id = e₂.id) (hname : e₁.name = e₂.name)
    (hver : e₁.version = e₂.version)
    (hinst : e₁.installType = e₂.installType)
    (hperm : e₁.permissions = e₂.permissions)
    (hhost : e₁.hostPermissions = e₂.hostPermissions) :
    reportCore (correlateRisk e₁ api obs) = reportCore (correlateRisk e₂ api obs) := by
  cases e₁
  cases e₂
  dsimp only at hid hname hver hinst hperm hhost
  subst hid hname hver hinst hperm hhost
  rfl

/-- C1 witness: two concrete extensions agreeing on the six contract
fields but differing in description and enabled state get identical
report cores. -/
theorem correlateRisk_deterministic_given_api_witness :
    reportCore (correlateRisk { plainExt with description := "store build" }
        (some apiSample) emptyObservations) =
      reportCore (correlateRisk { plainExt with enabled := false }
        (some apiSample) emptyObservations) :=
  correlateRisk_deterministic_given_api _ _ _ _ rfl rfl rfl rfl rfl rfl

/-- C1 counterexample: with the extension input and the stored behavior
snapshot both fixed, the availability of the remote analyzer service
changes the result of correlateRisk — the local fallback scores the
plain extension 0, the successful API outcome scores it 30, and the
usingAnalyzerAPI bit of the breakdown flips. -/
theorem correlateRisk_depends_on_api_availability :
    (correlateRisk plainExt none emptyObservations).riskScore = 0 ∧
    (correlateRisk plainExt (some apiSample) emptyObservations).riskScore = 30 ∧
    (correlateRisk plainExt none emptyObservations).riskScore ≠
      (correlateRisk plainExt (some apiSample) emptyObservations).riskScore ∧
    (correlateRisk plainExt none emptyObservations).breakdown.usingAnalyzerAPI
      = false ∧
    (correlateRisk plainExt (some apiSample)
      emptyObservations).breakdown.usingAnalyzerAPI = true := by
  refine ⟨by decide, by decide, by decide, rfl, rfl⟩

/-- C3 (amended): in installed-extension monitoring mode, when the
form_hijacking flag of the behavior vector is false the final score is
round(static*0.6 + runtime*0.4) plus the install-source bonus, clamped
at 100; when the flag is true the blend inverts to
round(static*0.3 + runtime*0.7) plus the bonus, clamped at 100; and the
branch is selected by exactly this flag — on an otherwise-identical
input the two blends produce different scores. -/
theorem blend_override_formula :
    (∀ (e : Extension) (api : Option ApiManifestAnalysis) (obs : Observations),
      (normalizeBehavior obs).form_hijacking = false →
      (correlateRisk e api obs).riskScore =
        min (roundBlend60 (staticAnalysisOf e api).riskScore
          (calculateRuntimeScore (normalizeBehavior obs)
            (staticAnalysisOf e api)).score + installBonus e) 100) ∧
    (∀ (e : Extension) (api : Option ApiManifestAnalysis) (obs : Observations),
      (normalizeBehavior obs).form_hijacking = true →
      (correlateRisk e api obs).riskScore =
        min (roundBlend30 (staticAnalysisOf e api).riskScore
          (calculateRuntimeScore (normalizeBehavior obs)
            (staticAnalysisOf e api)).score + installBonus e) 100) ∧
    ((correlateRisk maxStaticExt none domOnlyObs).riskScore = 68 ∧
     (correlateRisk maxStaticExt none
       { domOnlyObs with form_hijacking := true }).riskScore = 65) := by
  refine ⟨fun e api obs h => ?_, fun e api obs h => ?_, by decide, by decide⟩
  · show min ((if (normalizeBehavior obs).form_hijacking then
        roundBlend30 (staticAnalysisOf e api).riskScore
          (calculateRuntimeScore (normalizeBehavior obs)
            (staticAnalysisOf e api)).score
      else
        roundBlend60 (staticAnalysisOf e api).riskScore
          (calculateRuntimeScore (normalizeBehavior obs)
            (staticAnalysisOf e api)).score) + installBonus e) 100 = _
    rw [h]
    simp
  · show min ((if (normalizeBehavior obs).form_hijacking then
        roundBlend30 (staticAnalysisOf e api).riskScore
          (calculateRuntimeScore (normalizeBehavior obs)
            (staticAnalysisOf e api)).score
      else
        roundBlend60 (staticAnalysisOf e api).riskScore
          (calculateRuntimeScore (normalizeBehavior obs)
            (staticAnalysisOf e api)).score) + installBonus e) 100 = _
    rw [h]
    simp

/-- C3 witness: the 0.6/0.4 equation instantiated at the scenario-B
extension with an empty behavior snapshot (form_hijacking is false
there). -/
theorem blend_override_formula_witness :
    (correlateRisk scenarioBExt none emptyObservations).riskScore =
      min (roundBlend60 (staticAnalysisOf scenarioBExt none).riskScore
        (calculateRuntimeScore (normalizeBehavior emptyObservations)
          (staticAnalysisOf scenarioBExt none)).score
        + installBonus scenarioBExt) 100 :=
  blend_override_formula.1 scenarioBExt none emptyObservations (by decide)

/-- C3 counterexample: without the clamp the stated formula overshoots —
for an unpacked extension whose static and runtime scores are both 100,
round(static*0.6 + runtime*0.4) plus the install-source bonus is 105,
while correlateRisk returns 100. -/
theorem blend_plus_bonus_exceeds_clamp :
    (normalizeBehavior heavyObs).form_hijacking = false ∧
    roundBlend60 (staticAnalysisOf devExt none).riskScore
      (calculateRuntimeScore (normalizeBehavior heavyObs)
        (staticAnalysisOf devExt none)).score + installBonus devExt = 105 ∧
    (correlateRisk devExt none heavyObs).riskScore = 100 ∧
    (correlateRisk devExt none heavyObs).riskScore ≠
      roundBlend60 (staticAnalysisOf devExt none).riskScore
        (calculateRuntimeScore (normalizeBehavior heavyObs)
          (staticAnalysisOf devExt none)).score + installBonus devExt := by
  refine ⟨by decide, by decide, by decide, by decide⟩

/-- C4 (amended): adding any single permission to the declared
permission set never decreases the final riskScore, and turning any of
the dom_injection, keystroke_capture or external_post behavior flags on
while keeping everything else fixed never decreases it.  (Turning
form_hijacking on CAN decrease it, because it also inverts the blend
weights toward the runtime score: see the counterexample.) -/
theorem riskScore_monotone_amended :
    (∀ (e : Extension) (p : String) (api : Option ApiManifestAnalysis)
      (obs : Observations),
      (correlateRisk e api obs).riskScore ≤
        (correlateRisk (addPerm e p) api obs).riskScore) ∧
    (∀ (e : Extension) (api : Option ApiManifestAnalysis) (obs : Observations),
      (correlateRisk e api obs).riskScore ≤
        (correlateRisk e api { obs with dom_injection := true }).riskScore) ∧
    (∀ (e : Extension) (api : Option ApiManifestAnalysis) (obs : Observations),
      (correlateRisk e api obs).riskScore ≤
        (correlateRisk e api { obs with keystroke_capture := true }).riskScore) ∧
    (∀ (e : Extension) (api : Option ApiManifestAnalysis) (obs : Observations),
      (correlateRisk e api obs).riskScore ≤
        (correlateRisk e api { obs with external_post := true }).riskScore) := by
  refine ⟨fun e p api obs => ?_, fun e api obs => ?_, fun e api obs => ?_,
    fun e api obs => ?_⟩
  · cases api with
    | some a => exact Nat.le_of_eq rfl
    | none =>
      have hs : (staticAnalysisOf e none).riskScore ≤
          (staticAnalysisOf (addPerm e p) none).riskScore :=
        min_le_min (manifestRawScore_addPerm_mono e p) le_rfl
      show min ((if (normalizeBehavior obs).form_hijacking then
          roundBlend30 (staticAnalysisOf e none).riskScore
            (calculateRuntimeScore (normalizeBehavior obs)
              (staticAnalysisOf e none)).score
        else
          roundBlend60 (staticAnalysisOf e none).riskScore
            (calculateRuntimeScore (normalizeBehavior obs)
              (staticAnalysisOf e none)).score) + installBonus e) 100 ≤
        min ((if (normalizeBehavior obs).form_hijacking then
          roundBlend30 (staticAnalysisOf (addPerm e p) none).riskScore
            (calculateRuntimeScore (normalizeBehavior obs)
              (staticAnalysisOf (addPerm e p) none)).score
        else
          roundBlend60 (staticAnalysisOf (addPerm e p) none).riskScore
            (calculateRuntimeScore (normalizeBehavior obs)
              (staticAnalysisOf (addPerm e p) none)).score)
          + installBonus (addPerm e p)) 100
      have hr : calculateRuntimeScore (normalizeBehavior obs)
            (staticAnalysisOf (addPerm e p) none) =
          calculateRuntimeScore (normalizeBehavior obs)
            (staticAnalysisOf e none) := rfl
      have hb : installBonus (addPerm e p) = installBonus e := rfl
      rw [hr, hb]
      apply min_le_min _ le_rfl
      apply Nat.add_le_add_right
      cases (normalizeBehavior obs).form_hijacking
      · simp only [Bool.false_eq_true, if_false]
        unfold roundBlend60
        apply Nat.div_le_div_right
        have := hs
        omega
      · simp only [if_true]
        unfold roundBlend30
        apply Nat.div_le_div_right
        have := hs
        omega
  · exact correlateRisk_mono_behavior e api obs _ rfl (fun _ => rfl)
      (fun h => h) (fun h => h) rfl rfl rfl
  · exact correlateRisk_mono_behavior e api obs _ rfl (fun h => h)
      (fun _ => rfl) (fun h => h) rfl rfl rfl
  · exact correlateRisk_mono_behavior e api obs _ rfl (fun h => h)
      (fun h => h) (fun _ => rfl) rfl rfl rfl

/-- C4 counterexample: turning the form_hijacking behavior flag from
false to true on an otherwise-identical input DECREASES the final
riskScore (68 to 65) for an extension with maximal static score and a
small runtime score, because the flag also inverts the blend weights. -/
theorem form_hijacking_can_decrease_score :
    (correlateRisk maxStaticExt none domOnlyObs).riskScore = 68 ∧
    (correlateRisk maxStaticExt none
      { domOnlyObs with form_hijacking := true }).riskScore = 65 ∧
    (correlateRisk maxStaticExt none
        { domOnlyObs with form_hijacking := true }).riskScore <
      (correlateRisk maxStaticExt none domOnlyObs).riskScore := by
  refine ⟨by decide, by decide, by decide⟩

/-- C6: cookies combined with unrestricted host access raises the
COOKIE_THEFT_RISK flag and adds a combination bonus of 10 points beyond
the individually-scored items, and likewise webRequest combined with
unrestricted host access raises DATA_EXFILTRATION_RISK with its own
10-point bonus; the scenario-B artifact (host permission all_urls,
permissions cookies and webRequest, no observed behavior) gets manifest
score 60 — individual items 40 plus both combination bonuses — and an
overall riskLevel of MEDIUM or HIGH. -/
theorem combination_bonus_and_scenarioB :
    (∀ e : Extension, e.permissions.contains "cookies" = true →
      hasUniversalAccessOf e.hostPermissions = true →
      "COOKIE_THEFT_RISK" ∈ (analyzeManifestStatic e).flags ∧
      manifestBaseScore e + 10 ≤ manifestRawScore e) ∧
    (∀ e : Extension, e.permissions.contains "webRequest" = true →
      hasUniversalAccessOf e.hostPermissions = true →
      "DATA_EXFILTRATION_RISK" ∈ (analyzeManifestStatic e).flags ∧
      manifestBaseScore e + 10 ≤ manifestRawScore e) ∧
    ((analyzeManifestStatic scenarioBExt).riskScore = 60 ∧
     manifestBaseScore scenarioBExt = 40 ∧
     manifestComboBonus scenarioBExt = 20 ∧
     ((correlateRisk scenarioBExt none emptyObservations).riskLevel = "MEDIUM"
       ∨ (correlateRisk scenarioBExt none
            emptyObservations).riskLevel = "HIGH")) := by
  refine ⟨fun e h1 h2 => ⟨?_, ?_⟩, fun e h1 h2 => ⟨?_, ?_⟩,
    by decide, by decide, by decide, Or.inl (by decide)⟩
  · show "COOKIE_THEFT_RISK" ∈ _ ++ _ ++ _ ++ _ ++ _ ++ _ ++ _ ++
      (if e.permissions.contains "cookies" &&
          hasUniversalAccessOf e.hostPermissions
        then ["COOKIE_THEFT_RISK"] else []) ++ _
    rw [h1, h2]
    simp
  · unfold manifestRawScore manifestComboBonus
    rw [h1, h2]
    simp
  · show "DATA_EXFILTRATION_RISK" ∈ _ ++ _ ++ _ ++ _ ++ _ ++ _ ++ _ ++ _ ++
      (if e.permissions.contains "webRequest" &&
          hasUniversalAccessOf e.hostPermissions
        then ["DATA_EXFILTRATION_RISK"] else [])
    rw [h1, h2]
    simp
  · unfold manifestRawScore manifestComboBonus
    rw [h1, h2]
    simp

/-- C6 witness: the cookies + all_urls combination conjunct
instantiated at the scenario-B artifact. -/
theorem combination_bonus_witness :
    "COOKIE_THEFT_RISK" ∈ (analyzeManifestStatic scenarioBExt).flags ∧
    manifestBaseScore scenarioBExt + 10 ≤ manifestRawScore scenarioBExt :=
  combination_bonus_and_scenarioB.1 scenarioBExt (by decide) (by decide)

/-- C7 (amended): the data_exfiltration flag of the behavior vector is true
iff an outbound POST was observed OR any external fetch/XHR domain was
recorded — external traffic without a POST DOES set the flag; and the
flag is independent of whether the destinations are classified
suspicious (it depends only on the POST bit and on whether the domain
lists are empty). -/
theorem data_exfiltration_characterization :
    (∀ obs : Observations,
      ((normalizeBehavior obs).data_exfiltration = true ↔
        (obs.external_post = true ∨ obs.fetch_domains ≠ [] ∨
          obs.xhr_domains ≠ []))) ∧
    (∀ obs obs' : Observations,
      obs.external_post = obs'.external_post →
      (obs.fetch_domains = [] ↔ obs'.fetch_domains = []) →
      (obs.xhr_domains = [] ↔ obs'.xhr_domains = []) →
      (normalizeBehavior obs).data_exfiltration =
        (normalizeBehavior obs').data_exfiltration) := by
  constructor
  · intro obs
    simp only [normalizeBehavior, Bool.or_eq_true, bne_iff_ne, ne_eq,
      List.length_eq_zero]
    tauto
  · intro obs obs' hep hf hx
    simp only [normalizeBehavior, hep]
    have h1 : (obs.fetch_domains.length != 0) =
        (obs'.fetch_domains.length != 0) := by
      rw [Bool.eq_iff_iff]
      simp only [bne_iff_ne, ne_eq, List.length_eq_zero]
      exact not_congr hf
    have h2 : (obs.xhr_domains.length != 0) =
        (obs'.xhr_domains.length != 0) := by
      rw [Bool.eq_iff_iff]
      simp only [bne_iff_ne, ne_eq, List.length_eq_zero]
      exact not_congr hx
    rw [h1, h2]

/-- C7 witness: the characterization instantiated at the GET-only
observation snapshot — one recorded XHR domain and no POST sets the
flag. -/
theorem data_exfiltration_characterization_witness :
    (normalizeBehavior getOnlyObs).data_exfiltration = true :=
  (data_exfiltration_characterization.1 getOnlyObs).mpr (by decide)

/-- C7 counterexample: observed external traffic with no POST sets
data_exfiltration by itself — the snapshot with a single GET-only XHR
domain has external_post = false yet data_exfiltration = true,
refuting the claimed iff with outbound POST. -/
theorem data_exfiltration_without_post :
    getOnlyObs.external_post = false ∧
    (normalizeBehavior getOnlyObs).external_post = false ∧
    (normalizeBehavior getOnlyObs).data_exfiltration = true := by
  refine ⟨rfl, rfl, by decide⟩

/-- C8 (amended): analyzeManifestStatic is a total pure function on
every extension input whose permissions and hostPermissions fields are
present (possibly empty) lists, and the defaulting of absent fields to
empty happens in its callers (the metadata objects built by
discoverExtensions and scanOneExtension substitute empty lists before
analysis); an input with an absent field makes the analyzer itself
raise a TypeError (see the counterexample). -/
theorem analyzeManifestStatic_total_on_present_fields :
    (∀ info : ExtensionJS, info.permissions.isSome = true →
      info.hostPermissions.isSome = true →
      analyzeManifestStaticJS info =
        Except.ok (analyzeManifestStatic (toExtension info))) ∧
    (∀ info : ExtensionJS, info.permissions = none →
      (toExtension info).permissions = []) ∧
    (∀ info : ExtensionJS, info.hostPermissions = none →
      (toExtension info).hostPermissions = []) := by
  refine ⟨fun info h1 h2 => ?_, fun info h => ?_, fun info h => ?_⟩
  · cases hp : info.permissions with
    | none => rw [hp] at h1; cases h1
    | some ps =>
      cases hh : info.hostPermissions with
      | none => rw [hh] at h2; cases h2
      | some hs => simp [analyzeManifestStaticJS, hp, hh]
  · simp [toExtension, h]
  · simp [toExtension, h]

/-- C8 witness: the totality conjunct instantiated at a concrete input
with empty (but present) permission lists. -/
theorem analyzeManifestStatic_total_on_present_fields_witness :
    analyzeManifestStaticJS
        { bareInfo with permissions := some [], hostPermissions := some [] } =
      Except.ok (analyzeManifestStatic (toExtension
        { bareInfo with permissions := some [], hostPermissions := some [] })) :=
  analyzeManifestStatic_total_on_present_fields.1 _ (by decide) (by decide)

/-- C8 counterexample: an extension input whose permissions field is
absent (undefined) makes analyzeManifestStatic raise a TypeError at its
first permission check rather than defaulting the field to empty. -/
theorem analyzeManifestStatic_errs_on_absent_permissions :
    analyzeManifestStaticJS bareInfo =
      Except.error
        "TypeError: Cannot read properties of undefined (reading includes)" ∧
    (∀ r : StaticResult, analyzeManifestStaticJS bareInfo ≠ Except.ok r) := by
  exact ⟨rfl, fun r h => by cases h⟩

/-- C10: a blacklisted or whitelisted extension is never analyzed —
scanOneExtension returns null (none) for every extension id stored
under a blacklist or whitelist key, computing no risk report, and
scanAllExtensions excludes every whitelisted id from the set of
extensions passed to correlateRisk. -/
theorem listed_extensions_not_scanned :
    (∀ (storage : StorageKeys) (selfId : String) (info : ExtensionJS)
      (api : Option ApiManifestAnalysis) (obs : Observations),
      (storage.contains ("blacklist_" ++ info.id) = true ∨
        storage.contains ("whitelist_" ++ info.id) = true) →
      scanOneExtension storage selfId info api obs = none) ∧
    (∀ (storage : StorageKeys) (extensions : List Extension) (e : Extension),
      e ∈ scanTargets storage extensions →
      (whitelistOf storage).contains e.id = false) := by
  constructor
  · intro storage selfId info api obs h
    rcases h with h | h <;>
      (simp only [scanOneExtension]; split_ifs <;> simp_all)
  · intro storage extensions e he
    rw [scanTargets, List.mem_filter] at he
    simpa using he.2

/-- C10 witness: a blacklisted concrete extension is skipped by
scanOneExtension, and a concrete extension surviving the
scanAllExtensions filter is not whitelisted. -/
theorem listed_extensions_not_scanned_witness :
    scanOneExtension ["blacklist_ext-bare"] "self-id" bareInfo none
        emptyObservations = none ∧
    (whitelistOf ["whitelist_other-ext"]).contains plainExt.id = false :=
  ⟨listed_extensions_not_scanned.1 ["blacklist_ext-bare"] "self-id" bareInfo
      none emptyObservations (Or.inl (by decide)),
   listed_extensions_not_scanned.2 ["whitelist_other-ext"] [plainExt] plainExt
      (by decide)⟩

end Scanner

